import Mathlib

/-
  Verification of the ServerOptimizerPlugin (Endstone plugin, Python source
  src/server_optimizer/server_optimizer_plugin.py).

  Shallow embedding: the plugin's mutable instance attributes become the
  fields of `OptState`; each periodic task / command handler becomes a pure
  state-transition function.  Python floats (timestamps, tick durations,
  TPS values) are modelled as rationals; Python ints as Int/Nat.  The
  bounded `deque(maxlen=n)` buffers are modelled by `dappend`, which
  appends and then drops the oldest elements beyond the capacity.  The
  scheduler's pending one-shot `restore_normal` timers (scheduled by
  `emergency_crash_recovery` with delay 6000) are modelled by the counter
  `pending_restorations`: entry increments it, a firing restoration
  consumes one.
-/

namespace ServerOptimizer

/-- A connected player as the plugin sees it: an identifier, the OP flag,
and whether the player holds the serveropt.admin permission. -/
structure Player where
  pid : Nat
  is_op : Bool
  has_admin_perm : Bool
deriving DecidableEq, Repr

/-- `player.is_op or player.has_permission("serveropt.admin")` — the
admin-capability test used for lag alerts and emergency broadcasts. -/
def isAdminCapable (p : Player) : Bool := p.is_op || p.has_admin_perm

/-! Constants fixed in `on_load` and never reassigned. -/

def min_view_distance : Int := 4
def max_view_distance : Int := 12
def base_view_distance : Int := 8
def tps_critical : ℚ := 15
def tps_warning : ℚ := 18
def lag_alert_cooldown : ℚ := 60
def optimization_interval : ℚ := 120
def max_chunks_per_player : Nat := 64

/-- The plugin's mutable state (the instance attributes set in `on_load`
that the verified operations read or write).  `loaded_chunks_estimated`
models `self.loaded_chunks["estimated"]` (the only key ever used; a
cleared dict reads back as 0 through `defaultdict`/`get` defaults).
`pending_restorations` counts scheduled-but-not-yet-fired
`restore_normal` timers. -/
structure OptState where
  tick_times : List ℚ
  tps_history : List ℚ
  last_tick : ℚ
  auto_optimize : Bool
  aggressive_mode : Bool
  last_optimization : ℚ
  loaded_chunks_estimated : Nat
  auto_view_distance : Bool
  current_view_distance : Int
  total_optimizations : Nat
  chunks_cleared_total : Nat
  entities_removed_total : Nat
  last_lag_alert : ℚ
  pending_restorations : Nat
deriving DecidableEq, Repr

/-- The state `on_load` builds, with `t0` the load-time clock value
(`self.last_tick = time.time()`). -/
def init (t0 : ℚ) : OptState where
  tick_times := []
  tps_history := []
  last_tick := t0
  auto_optimize := true
  aggressive_mode := false
  last_optimization := 0
  loaded_chunks_estimated := 0
  auto_view_distance := true
  current_view_distance := base_view_distance
  total_optimizations := 0
  chunks_cleared_total := 0
  entities_removed_total := 0
  last_lag_alert := 0
  pending_restorations := 0

/-- `deque(maxlen=cap).append`: append on the right, evict oldest beyond
the capacity. -/
def dappend (cap : Nat) (xs : List ℚ) (x : ℚ) : List ℚ :=
  let ys := xs ++ [x]
  ys.drop (ys.length - cap)

/-- `calculate_tps`: fewer than 20 samples → 20.0; otherwise the inverse
of the average over the whole retained window, capped at 20.0, with the
zero-average case returning 20.0. -/
def calculate_tps (tick_times : List ℚ) : ℚ :=
  if tick_times.length < 20 then 20
  else
    let avg := tick_times.sum / (tick_times.length : ℚ)
    if avg = 0 then 20 else min 20 (1 / avg)

/-- `notify_admins_lag`: inside the 60 s cooldown it is a no-op; otherwise
it stamps `last_lag_alert` and messages every admin-capable online player.
The first component is the list of players actually messaged. -/
def notify_admins_lag (now : ℚ) (tps : ℚ) (players : List Player)
    (s : OptState) : List Player × OptState :=
  if now - s.last_lag_alert < lag_alert_cooldown then ([], s)
  else (players.filter isAdminCapable, { s with last_lag_alert := now })

/-- `monitor_performance` (per-tick task): record the tick duration,
recompute TPS, append it to the history, refresh the chunk estimate, and
alert admins when TPS is critical. -/
def monitor_performance (now : ℚ) (players : List Player)
    (s : OptState) : OptState :=
  let tick_duration := now - s.last_tick
  let new_ticks := dappend 200 s.tick_times tick_duration
  let tps := calculate_tps new_ticks
  let s1 : OptState :=
    { s with
      last_tick := now
      tick_times := new_ticks
      tps_history := dappend 60 s.tps_history tps
      loaded_chunks_estimated := players.length * max_chunks_per_player }
  if tps < tps_critical then (notify_admins_lag now tps players s1).2 else s1

/-- Threshold used by `optimize_chunks`: 300 in aggressive mode, 500
otherwise. -/
def chunk_threshold (s : OptState) : Nat :=
  if s.aggressive_mode then 300 else 500

/-- `optimize_chunks`: when the estimate exceeds the threshold, return the
excess, clear the estimate and add the excess to the running total;
otherwise return 0 and change nothing. -/
def optimize_chunks (s : OptState) : Nat × OptState :=
  if chunk_threshold s < s.loaded_chunks_estimated then
    let count := s.loaded_chunks_estimated - chunk_threshold s
    (count, { s with
      loaded_chunks_estimated := 0
      chunks_cleared_total := s.chunks_cleared_total + count })
  else (0, s)

/-- `optimize_entities`: fixed count, 100 in aggressive mode, 50
otherwise; added to the running total. -/
def optimize_entities (s : OptState) : Nat × OptState :=
  let count := if s.aggressive_mode then 100 else 50
  (count, { s with entities_removed_total := s.entities_removed_total + count })

/-- `emergency_crash_recovery`: drop the view distance to the minimum,
switch aggressive mode on, run chunk and entity optimization immediately
(`optimize_memory` only calls the garbage collector, so it has no effect
on the modelled state), and schedule one `restore_normal` timer
unconditionally. -/
def emergency_crash_recovery (s : OptState) : OptState :=
  let s1 := { s with
    current_view_distance := min_view_distance
    aggressive_mode := true }
  let s2 := (optimize_chunks s1).2
  let s3 := (optimize_entities s2).2
  { s3 with pending_restorations := s3.pending_restorations + 1 }

/-- The deferred `restore_normal` closure firing: back to the base view
distance, aggressive mode off; the fired timer is consumed. -/
def restore_normal (s : OptState) : OptState :=
  { s with
    current_view_distance := base_view_distance
    aggressive_mode := false
    pending_restorations := s.pending_restorations - 1 }

/-- `fast_optimization_check` (every 200 ticks): when auto-optimization is
on and TPS is below the critical threshold, enter emergency recovery. -/
def fast_optimization_check (s : OptState) : OptState :=
  if s.auto_optimize = false then s
  else if calculate_tps s.tick_times < tps_critical then
    emergency_crash_recovery s
  else s

/-- `auto_optimize_task` (every 600 ticks): when TPS is below the warning
threshold or the optimization interval has elapsed, run chunk and entity
optimization and bump the counters. -/
def auto_optimize_task (now : ℚ) (s : OptState) : OptState :=
  if s.auto_optimize = false then s
  else if calculate_tps s.tick_times < tps_warning ∨
      optimization_interval ≤ now - s.last_optimization then
    let s1 := (optimize_chunks s).2
    let s2 := (optimize_entities s1).2
    { s2 with
      last_optimization := now
      total_optimizations := s2.total_optimizations + 1 }
  else s

/-- `cleanup_chunks` (every 1200 ticks): clear the estimate above 500 and
credit the excess to the running total. -/
def cleanup_chunks (s : OptState) : OptState :=
  if s.auto_optimize = false then s
  else if 500 < s.loaded_chunks_estimated then
    { s with
      loaded_chunks_estimated := 0
      chunks_cleared_total :=
        s.chunks_cleared_total + (s.loaded_chunks_estimated - 500) }
  else s

/-- `adjust_view_distance` (every 300 ticks): hysteresis controller.
Raise by one towards the maximum when TPS ≥ 19.5, lower by one towards the
minimum when TPS < 17.0, jump to the minimum when TPS is critical. -/
def adjust_view_distance (s : OptState) : OptState :=
  if s.auto_view_distance = false then s
  else
    let tps := calculate_tps s.tick_times
    let target :=
      if 19.5 ≤ tps ∧ s.current_view_distance < max_view_distance then
        min max_view_distance (s.current_view_distance + 1)
      else if tps < 17 ∧ min_view_distance < s.current_view_distance then
        max min_view_distance (s.current_view_distance - 1)
      else if tps < tps_critical then
        min_view_distance
      else s.current_view_distance
    { s with current_view_distance := target }

/-- `monitor_overload` (every 60 ticks): emergency recovery when the
player count reaches 100 or the chunk estimate reaches 5000. -/
def monitor_overload (players : List Player) (s : OptState) : OptState :=
  if 100 ≤ players.length ∨ 5000 ≤ s.loaded_chunks_estimated then
    emergency_crash_recovery s
  else s

/-- Argument shapes of `/viewdistance`: no argument (status display), the
literal `auto`, a numeric argument, or a token `int()` rejects. -/
inductive VdArg where
  | noArgs
  | autoArg
  | num (v : Int)
  | invalid
deriving DecidableEq, Repr

/-- Outcome of a command handler: `ok` is a `True` return, the error
outcomes are `send_error_message` followed by a `False` return. -/
inductive CmdOutcome where
  | ok
  | invalidArgument
  | permissionDenied
deriving DecidableEq, Repr

/-- `handle_viewdistance_command`: permission gate, the `auto` toggle, and
the validated numeric override that disables auto adjustment. -/
def handle_viewdistance_command (s : OptState) (hasPerm : Bool)
    (arg : VdArg) : CmdOutcome × OptState :=
  if hasPerm = false then (CmdOutcome.permissionDenied, s)
  else
    match arg with
    | VdArg.noArgs => (CmdOutcome.ok, s)
    | VdArg.autoArg =>
        (CmdOutcome.ok, { s with auto_view_distance := !s.auto_view_distance })
    | VdArg.num v =>
        if v < min_view_distance ∨ max_view_distance < v then
          (CmdOutcome.invalidArgument, s)
        else
          (CmdOutcome.ok, { s with
            current_view_distance := v
            auto_view_distance := false })
    | VdArg.invalid => (CmdOutcome.invalidArgument, s)

/-- `/optimize full`: run chunk, entity and memory optimization
back-to-back. -/
def run_full_optimization (s : OptState) : OptState :=
  (optimize_entities (optimize_chunks s).2).2

/-- Every state-mutating operation of the plugin, as invoked by the
scheduler, the command dispatcher, or an emergency trigger. -/
inductive Op where
  | monitorPerformance (now : ℚ) (players : List Player)
  | fastOptimizationCheck
  | autoOptimizeTask (now : ℚ)
  | cleanupChunks
  | adjustViewDistance
  | monitorOverload (players : List Player)
  | emergencyRecovery
  | restoreNormal
  | viewdistanceCommand (hasPerm : Bool) (arg : VdArg)
  | runFullOptimization
  | notifyAdminsLag (now : ℚ) (tps : ℚ) (players : List Player)

/-- Interpretation of an operation as a state transition. -/
def applyOp : Op → OptState → OptState
  | Op.monitorPerformance now players, s => monitor_performance now players s
  | Op.fastOptimizationCheck, s => fast_optimization_check s
  | Op.autoOptimizeTask now, s => auto_optimize_task now s
  | Op.cleanupChunks, s => cleanup_chunks s
  | Op.adjustViewDistance, s => adjust_view_distance s
  | Op.monitorOverload players, s => monitor_overload players s
  | Op.emergencyRecovery, s => emergency_crash_recovery s
  | Op.restoreNormal, s => restore_normal s
  | Op.viewdistanceCommand hp arg, s => (handle_viewdistance_command s hp arg).2
  | Op.runFullOptimization, s => run_full_optimization s
  | Op.notifyAdminsLag now tps players, s =>
      (notify_admins_lag now tps players s).2

/-- States the plugin can actually be in: the `on_load` state followed by
any sequence of operations. -/
inductive Reachable : OptState → Prop where
  | base (t0 : ℚ) : Reachable (init t0)
  | step (op : Op) {s : OptState} : Reachable s → Reachable (applyOp op s)

/-- A concrete run used as evidence: load at time 0, then one
`monitor_performance` tick per second with no players online.  After 20
ticks the window holds 20 samples of duration 1 and the TPS is 1. -/
def demoState : Nat → OptState
  | 0 => init 0
  | n + 1 => applyOp (Op.monitorPerformance ((n + 1 : Nat) : ℚ) []) (demoState n)

/-- The view-distance bounds invariant: `current ∈ [4, 12]`. -/
def VdInRange (s : OptState) : Prop :=
  min_view_distance ≤ s.current_view_distance ∧
  s.current_view_distance ≤ max_view_distance

/-! ## Field-preservation lemmas -/

lemma cvd_optimize_chunks (s : OptState) :
    (optimize_chunks s).2.current_view_distance = s.current_view_distance := by
  unfold optimize_chunks
  split <;> rfl

lemma cvd_optimize_entities (s : OptState) :
    (optimize_entities s).2.current_view_distance = s.current_view_distance := rfl

lemma cvd_notify (now tps : ℚ) (players : List Player) (s : OptState) :
    (notify_admins_lag now tps players s).2.current_view_distance
      = s.current_view_distance := by
  unfold notify_admins_lag
  split <;> rfl

lemma cvd_monitor (now : ℚ) (players : List Player) (s : OptState) :
    (monitor_performance now players s).current_view_distance
      = s.current_view_distance := by
  unfold monitor_performance notify_admins_lag
  dsimp only
  split <;> first | rfl | (split <;> rfl)

lemma cvd_cleanup (s : OptState) :
    (cleanup_chunks s).current_view_distance = s.current_view_distance := by
  unfold cleanup_chunks
  split <;> first | rfl | (split <;> rfl)

lemma cvd_auto_optimize_task (now : ℚ) (s : OptState) :
    (auto_optimize_task now s).current_view_distance = s.current_view_distance := by
  unfold auto_optimize_task
  split
  · rfl
  · split
    · show (optimize_entities (optimize_chunks s).2).2.current_view_distance = _
      rw [cvd_optimize_entities, cvd_optimize_chunks]
    · rfl

lemma cvd_full (s : OptState) :
    (run_full_optimization s).current_view_distance = s.current_view_distance := by
  unfold run_full_optimization
  rw [cvd_optimize_entities, cvd_optimize_chunks]

lemma cvd_emergency (s : OptState) :
    (emergency_crash_recovery s).current_view_distance = min_view_distance := by
  unfold emergency_crash_recovery
  show (optimize_entities (optimize_chunks _).2).2.current_view_distance = _
  rw [cvd_optimize_entities, cvd_optimize_chunks]

lemma aggressive_optimize_chunks (s : OptState) :
    (optimize_chunks s).2.aggressive_mode = s.aggressive_mode := by
  unfold optimize_chunks
  split <;> rfl

lemma aggressive_optimize_entities (s : OptState) :
    (optimize_entities s).2.aggressive_mode = s.aggressive_mode := rfl

lemma aggressive_emergency (s : OptState) :
    (emergency_crash_recovery s).aggressive_mode = true := by
  unfold emergency_crash_recovery
  show (optimize_entities (optimize_chunks _).2).2.aggressive_mode = _
  rw [aggressive_optimize_entities, aggressive_optimize_chunks]

lemma auto_opt_optimize_chunks (s : OptState) :
    (optimize_chunks s).2.auto_optimize = s.auto_optimize := by
  unfold optimize_chunks
  split <;> rfl

lemma auto_opt_optimize_entities (s : OptState) :
    (optimize_entities s).2.auto_optimize = s.auto_optimize := rfl

lemma auto_opt_emergency (s : OptState) :
    (emergency_crash_recovery s).auto_optimize = s.auto_optimize := by
  unfold emergency_crash_recovery
  show (optimize_entities (optimize_chunks _).2).2.auto_optimize = _
  rw [auto_opt_optimize_entities, auto_opt_optimize_chunks]

lemma auto_opt_full (s : OptState) :
    (run_full_optimization s).auto_optimize = s.auto_optimize := by
  unfold run_full_optimization
  rw [auto_opt_optimize_entities, auto_opt_optimize_chunks]

/-- No operation of the plugin ever changes `auto_optimize`: the flag is
written only in `on_load`. -/
lemma auto_opt_applyOp (op : Op) (s : OptState) :
    (applyOp op s).auto_optimize = s.auto_optimize := by
  cases op with
  | monitorPerformance now players =>
      show (monitor_performance now players s).auto_optimize = _
      unfold monitor_performance notify_admins_lag
      dsimp only
      split <;> first | rfl | (split <;> rfl)
  | fastOptimizationCheck =>
      show (fast_optimization_check s).auto_optimize = _
      unfold fast_optimization_check
      split
      · rfl
      · split
        · exact auto_opt_emergency s
        · rfl
  | autoOptimizeTask now =>
      show (auto_optimize_task now s).auto_optimize = _
      unfold auto_optimize_task
      split
      · rfl
      · split
        · show (optimize_entities (optimize_chunks s).2).2.auto_optimize = _
          rw [auto_opt_optimize_entities, auto_opt_optimize_chunks]
        · rfl
  | cleanupChunks =>
      show (cleanup_chunks s).auto_optimize = _
      unfold cleanup_chunks
      split <;> first | rfl | (split <;> rfl)
  | adjustViewDistance =>
      show (adjust_view_distance s).auto_optimize = _
      unfold adjust_view_distance
      split <;> rfl
  | monitorOverload players =>
      show (monitor_overload players s).auto_optimize = _
      unfold monitor_overload
      split
      · exact auto_opt_emergency s
      · rfl
  | emergencyRecovery => exact auto_opt_emergency s
  | restoreNormal => rfl
  | viewdistanceCommand hp arg =>
      show (handle_viewdistance_command s hp arg).2.auto_optimize = _
      unfold handle_viewdistance_command
      split
      · rfl
      · cases arg
        · rfl
        · rfl
        · dsimp only
          split <;> rfl
        · rfl
  | runFullOptimization => exact auto_opt_full s
  | notifyAdminsLag now tps players =>
      show (notify_admins_lag now tps players s).2.auto_optimize = _
      unfold notify_admins_lag
      split <;> rfl

/-- Every reachable state has `auto_optimize = true`. -/
lemma reachable_auto_optimize {s : OptState} (h : Reachable s) :
    s.auto_optimize = true := by
  induction h with
  | base t0 => rfl
  | step op h ih => rw [auto_opt_applyOp]; exact ih

/-- `emergency_crash_recovery` leaves the view distance in range. -/
lemma range_emergency (s : OptState) : VdInRange (emergency_crash_recovery s) := by
  unfold VdInRange
  rw [cvd_emergency]
  unfold min_view_distance max_view_distance
  omega

/-- `adjust_view_distance` preserves the view-distance range. -/
lemma range_adjust (s : OptState) (h : VdInRange s) :
    VdInRange (adjust_view_distance s) := by
  unfold VdInRange at *
  unfold adjust_view_distance
  split
  · exact h
  · dsimp only
    unfold min_view_distance max_view_distance at *
    split
    · constructor <;> [omega; omega]
    · split
      · constructor <;> [omega; omega]
      · split
        · constructor <;> [omega; omega]
        · exact h

/-- `handle_viewdistance_command` preserves the view-distance range. -/
lemma range_vdcmd (s : OptState) (hp : Bool) (arg : VdArg) (h : VdInRange s) :
    VdInRange ((handle_viewdistance_command s hp arg).2) := by
  unfold VdInRange at *
  unfold handle_viewdistance_command
  split
  · exact h
  · cases arg
    · exact h
    · exact h
    · dsimp only
      split
      · exact h
      · rename_i hcond
        unfold min_view_distance max_view_distance at *
        push_neg at hcond
        exact hcond
    · exact h

/-- Every operation preserves the view-distance range. -/
lemma range_applyOp (op : Op) (s : OptState) (h : VdInRange s) :
    VdInRange (applyOp op s) := by
  cases op with
  | monitorPerformance now players =>
      show VdInRange (monitor_performance now players s)
      unfold VdInRange at *
      rw [cvd_monitor]
      exact h
  | fastOptimizationCheck =>
      show VdInRange (fast_optimization_check s)
      unfold fast_optimization_check
      split
      · exact h
      · split
        · exact range_emergency s
        · exact h
  | autoOptimizeTask now =>
      show VdInRange (auto_optimize_task now s)
      unfold VdInRange at *
      rw [cvd_auto_optimize_task]
      exact h
  | cleanupChunks =>
      show VdInRange (cleanup_chunks s)
      unfold VdInRange at *
      rw [cvd_cleanup]
      exact h
  | adjustViewDistance => exact range_adjust s h
  | monitorOverload players =>
      show VdInRange (monitor_overload players s)
      unfold monitor_overload
      split
      · exact range_emergency s
      · exact h
  | emergencyRecovery => exact range_emergency s
  | restoreNormal =>
      show VdInRange (restore_normal s)
      unfold VdInRange restore_normal min_view_distance max_view_distance
        base_view_distance
      dsimp only
      omega
  | viewdistanceCommand hp arg => exact range_vdcmd s hp arg h
  | runFullOptimization =>
      show VdInRange (run_full_optimization s)
      unfold VdInRange at *
      rw [cvd_full]
      exact h
  | notifyAdminsLag now tps players =>
      show VdInRange ((notify_admins_lag now tps players s).2)
      unfold VdInRange at *
      rw [cvd_notify]
      exact h

/-- With auto adjustment on and TPS below 17, the adjuster never raises
the view distance (given the range invariant's lower bound). -/
lemma adjust_no_increase (s : OptState) (hauto : s.auto_view_distance = true)
    (htps : calculate_tps s.tick_times < 17)
    (hlo : min_view_distance ≤ s.current_view_distance) :
    (adjust_view_distance s).current_view_distance ≤ s.current_view_distance := by
  unfold adjust_view_distance
  rw [if_neg (by simp [hauto])]
  dsimp only
  have hn1 : ¬ ((19.5 : ℚ) ≤ calculate_tps s.tick_times ∧
      s.current_view_distance < max_view_distance) := by
    rintro ⟨h1, _⟩
    linarith
  rw [if_neg hn1]
  by_cases h2 : calculate_tps s.tick_times < 17 ∧
      min_view_distance < s.current_view_distance
  · rw [if_pos h2]
    unfold min_view_distance at *
    omega
  · rw [if_neg h2]
    by_cases h3 : calculate_tps s.tick_times < tps_critical
    · rw [if_pos h3]
      exact hlo
    · rw [if_neg h3]

/-- With auto adjustment on and TPS at least 19.5, the adjuster never
lowers the view distance. -/
lemma adjust_no_decrease (s : OptState) (hauto : s.auto_view_distance = true)
    (htps : (19.5 : ℚ) ≤ calculate_tps s.tick_times) :
    s.current_view_distance ≤ (adjust_view_distance s).current_view_distance := by
  unfold adjust_view_distance
  rw [if_neg (by simp [hauto])]
  dsimp only
  have h17 : ¬ (calculate_tps s.tick_times < 17 ∧
      min_view_distance < s.current_view_distance) := by
    rintro ⟨h1, _⟩
    linarith
  have hcrit : ¬ (calculate_tps s.tick_times < tps_critical) := by
    unfold tps_critical
    intro h1
    linarith
  by_cases h1 : (19.5 : ℚ) ≤ calculate_tps s.tick_times ∧
      s.current_view_distance < max_view_distance
  · rw [if_pos h1]
    unfold max_view_distance at *
    omega
  · rw [if_neg h1, if_neg h17, if_neg hcrit]

/-! ## Counter-monotonicity lemmas -/

/-- The three lifetime totals never decrease from state `s` to state `t`. -/
def CountersLE (s t : OptState) : Prop :=
  s.total_optimizations ≤ t.total_optimizations ∧
  s.chunks_cleared_total ≤ t.chunks_cleared_total ∧
  s.entities_removed_total ≤ t.entities_removed_total

lemma countersLE_refl (s : OptState) : CountersLE s s :=
  ⟨le_refl _, le_refl _, le_refl _⟩

lemma countersLE_trans {a b c : OptState} (h1 : CountersLE a b)
    (h2 : CountersLE b c) : CountersLE a c :=
  ⟨le_trans h1.1 h2.1, le_trans h1.2.1 h2.2.1, le_trans h1.2.2 h2.2.2⟩

lemma countersLE_optimize_chunks (s : OptState) :
    CountersLE s (optimize_chunks s).2 := by
  unfold CountersLE optimize_chunks
  split
  · dsimp only
    exact ⟨le_refl _, Nat.le_add_right _ _, le_refl _⟩
  · exact countersLE_refl s

lemma countersLE_optimize_entities (s : OptState) :
    CountersLE s (optimize_entities s).2 := by
  unfold CountersLE optimize_entities
  dsimp only
  exact ⟨le_refl _, le_refl _, Nat.le_add_right _ _⟩

lemma countersLE_emergency (s : OptState) :
    CountersLE s (emergency_crash_recovery s) := by
  unfold emergency_crash_recovery
  dsimp only
  have h0 : CountersLE s
      { s with current_view_distance := min_view_distance,
               aggressive_mode := true } :=
    ⟨le_refl _, le_refl _, le_refl _⟩
  refine countersLE_trans h0 ?_
  refine countersLE_trans (countersLE_optimize_chunks _) ?_
  refine countersLE_trans (countersLE_optimize_entities _) ?_
  exact ⟨le_refl _, le_refl _, le_refl _⟩

lemma countersLE_full (s : OptState) :
    CountersLE s (run_full_optimization s) := by
  unfold run_full_optimization
  exact countersLE_trans (countersLE_optimize_chunks _)
    (countersLE_optimize_entities _)

lemma countersLE_applyOp (op : Op) (s : OptState) :
    CountersLE s (applyOp op s) := by
  cases op with
  | monitorPerformance now players =>
      show CountersLE s (monitor_performance now players s)
      unfold monitor_performance notify_admins_lag
      dsimp only
      split
      · split
        · exact ⟨le_refl _, le_refl _, le_refl _⟩
        · exact ⟨le_refl _, le_refl _, le_refl _⟩
      · exact ⟨le_refl _, le_refl _, le_refl _⟩
  | fastOptimizationCheck =>
      show CountersLE s (fast_optimization_check s)
      unfold fast_optimization_check
      split
      · exact countersLE_refl _
      · split
        · exact countersLE_emergency s
        · exact countersLE_refl _
  | autoOptimizeTask now =>
      show CountersLE s (auto_optimize_task now s)
      unfold auto_optimize_task
      split
      · exact countersLE_refl _
      · split
        · dsimp only
          refine countersLE_trans (countersLE_optimize_chunks s) ?_
          refine countersLE_trans (countersLE_optimize_entities _) ?_
          exact ⟨Nat.le_add_right _ _, le_refl _, le_refl _⟩
        · exact countersLE_refl _
  | cleanupChunks =>
      show CountersLE s (cleanup_chunks s)
      unfold cleanup_chunks
      split
      · exact countersLE_refl _
      · split
        · exact ⟨le_refl _, Nat.le_add_right _ _, le_refl _⟩
        · exact countersLE_refl _
  | adjustViewDistance =>
      show CountersLE s (adjust_view_distance s)
      unfold adjust_view_distance
      split
      · exact countersLE_refl _
      · exact ⟨le_refl _, le_refl _, le_refl _⟩
  | monitorOverload players =>
      show CountersLE s (monitor_overload players s)
      unfold monitor_overload
      split
      · exact countersLE_emergency s
      · exact countersLE_refl _
  | emergencyRecovery => exact countersLE_emergency s
  | restoreNormal => exact ⟨le_refl _, le_refl _, le_refl _⟩
  | viewdistanceCommand hp arg =>
      show CountersLE s (handle_viewdistance_command s hp arg).2
      unfold handle_viewdistance_command
      split
      · exact countersLE_refl _
      · cases arg
        · exact countersLE_refl _
        · exact ⟨le_refl _, le_refl _, le_refl _⟩
        · dsimp only
          split
          · exact countersLE_refl _
          · exact ⟨le_refl _, le_refl _, le_refl _⟩
        · exact countersLE_refl _
  | runFullOptimization => exact countersLE_full s
  | notifyAdminsLag now tps players =>
      show CountersLE s (notify_admins_lag now tps players s).2
      unfold notify_admins_lag
      split
      · exact countersLE_refl _
      · exact ⟨le_refl _, le_refl _, le_refl _⟩

/-! ## TPS estimator lemmas -/

/-- On a window of nonnegative samples the estimator stays in `[0, 20]`. -/
lemma calcTps_bounds (w : List ℚ) (hw : ∀ x ∈ w, 0 ≤ x) :
    0 ≤ calculate_tps w ∧ calculate_tps w ≤ 20 := by
  unfold calculate_tps
  split
  · norm_num
  · dsimp only
    split
    · norm_num
    · rename_i hlen havg
      have hl : 0 < w.length := by omega
      have hs : 0 ≤ w.sum := List.sum_nonneg hw
      have h0 : 0 ≤ w.sum / (w.length : ℚ) := by positivity
      have hpos : 0 < w.sum / (w.length : ℚ) := lt_of_le_of_ne h0 (Ne.symm havg)
      constructor
      · exact le_min (by norm_num) (by positivity)
      · exact min_le_left _ _

/-- Members of a capped append come from the old buffer or are the new
sample. -/
lemma mem_dappend {cap : Nat} {xs : List ℚ} {x y : ℚ}
    (h : y ∈ dappend cap xs x) : y ∈ xs ∨ y = x := by
  unfold dappend at h
  have h2 := List.mem_of_mem_drop h
  rcases List.mem_append.mp h2 with h3 | h3
  · exact Or.inl h3
  · simp only [List.mem_singleton] at h3
    exact Or.inr h3

/-- `monitor_performance` appends exactly the TPS computed from the
updated tick window to the TPS history. -/
lemma monitor_history (now : ℚ) (players : List Player) (s : OptState) :
    (monitor_performance now players s).tps_history
      = dappend 60 s.tps_history
          (calculate_tps (dappend 200 s.tick_times (now - s.last_tick))) := by
  unfold monitor_performance notify_admins_lag
  dsimp only
  split <;> first | rfl | (split <;> rfl)

/-! ## A concrete run reaching critical TPS -/

lemma demoState_reachable (n : Nat) : Reachable (demoState n) := by
  induction n with
  | zero => exact Reachable.base 0
  | succ n ih => exact Reachable.step _ ih

lemma demoState_spec (n : Nat) (hn : n ≤ 20) :
    (demoState n).tick_times = List.replicate n 1 ∧
    (demoState n).last_tick = (n : ℚ) := by
  induction n with
  | zero => exact ⟨rfl, rfl⟩
  | succ n ih =>
      have hn1 : n ≤ 20 := by omega
      obtain ⟨hticks, hlast⟩ := ih hn1
      have hdur : ((n + 1 : Nat) : ℚ) - (demoState n).last_tick = 1 := by
        rw [hlast]
        push_cast
        ring
      have happend : dappend 200 (demoState n).tick_times
          (((n + 1 : Nat) : ℚ) - (demoState n).last_tick)
          = List.replicate (n + 1) 1 := by
        rw [hdur, hticks]
        unfold dappend
        dsimp only
        have hlen : (List.replicate n (1 : ℚ) ++ [1]).length = n + 1 := by simp
        rw [hlen]
        have hz : n + 1 - 200 = 0 := by omega
        rw [hz, List.drop_zero]
        rw [← List.replicate_succ' n (1 : ℚ)]
      constructor
      · show (monitor_performance ((n + 1 : Nat) : ℚ) [] (demoState n)).tick_times
            = List.replicate (n + 1) 1
        unfold monitor_performance notify_admins_lag
        dsimp only
        rw [happend]
        split <;> first | rfl | (split <;> rfl)
      · show (monitor_performance ((n + 1 : Nat) : ℚ) [] (demoState n)).last_tick
            = ((n + 1 : Nat) : ℚ)
        unfold monitor_performance notify_admins_lag
        dsimp only
        split <;> first | rfl | (split <;> rfl)

/-- After 20 demo ticks of duration 1, the computed TPS is 1. -/
lemma demoState_tps : calculate_tps (demoState 20).tick_times = 1 := by
  obtain ⟨hticks, _⟩ := demoState_spec 20 (le_refl 20)
  rw [hticks]
  unfold calculate_tps
  rw [List.length_replicate]
  rw [if_neg (by omega)]
  dsimp only
  rw [List.sum_replicate]
  norm_num

/-- The estimator on a window of 20 identical samples `d ≠ 0`. -/
lemma calcTps_replicate20 (d : ℚ) (hd : d ≠ 0) :
    calculate_tps (List.replicate 20 d) = min 20 (1 / d) := by
  unfold calculate_tps
  rw [List.length_replicate, if_neg (by omega)]
  dsimp only
  rw [List.sum_replicate]
  have h20 : ((20 : ℕ) • d) / ((20 : ℕ) : ℚ) = d := by
    rw [nsmul_eq_mul]
    push_cast
    field_simp
  rw [h20, if_neg hd]

/-! ## Claim theorems -/

/-- Claim C1: for a window of fewer than 20 samples `calculate_tps`
returns exactly 20; for a window of at least 20 samples it returns
`min 20 (1 / average)` over the entire retained window, and 20 when that
average is 0; for 20 identical samples of duration `d > 0` it returns
`min 20 (1 / d)`. -/
theorem c1_calculate_tps : ∀ (w : List ℚ) (d : ℚ),
    (w.length < 20 → calculate_tps w = 20) ∧
    (20 ≤ w.length → w.sum / (w.length : ℚ) = 0 → calculate_tps w = 20) ∧
    (20 ≤ w.length → w.sum / (w.length : ℚ) ≠ 0 →
      calculate_tps w = min 20 (1 / (w.sum / (w.length : ℚ)))) ∧
    (0 < d → calculate_tps (List.replicate 20 d) = min 20 (1 / d)) := by
  intro w d
  refine ⟨?_, ?_, ?_, fun hd => calcTps_replicate20 d (ne_of_gt hd)⟩
  · intro h
    unfold calculate_tps
    rw [if_pos h]
  · intro h1 h2
    unfold calculate_tps
    rw [if_neg (by omega)]
    dsimp only
    rw [if_pos h2]
  · intro h1 h2
    unfold calculate_tps
    rw [if_neg (by omega)]
    dsimp only
    rw [if_neg h2]

/-- Witness for C1 at the window of 20 identical samples of 1/10. -/
theorem c1_witness :
    (0 : ℚ) < 1 / 10 ∧
    calculate_tps (List.replicate 20 ((1 : ℚ) / 10))
      = min 20 (1 / ((1 : ℚ) / 10)) :=
  ⟨by norm_num,
   (c1_calculate_tps (List.replicate 20 ((1 : ℚ) / 10)) ((1 : ℚ) / 10)).2.2.2
     (by norm_num)⟩

/-- Claim C2, evaluated at the failing input: `emergency_crash_recovery`
schedules a `restore_normal` timer unconditionally, so a second entry
before the pending restoration fires leaves two pending timers — the
claimed guard (at most one pending restoration timer at any time) is not
implemented.  Entry does set the view distance to the minimum and
aggressive mode on. -/
theorem c2_double_restoration :
    (emergency_crash_recovery (init 0)).pending_restorations = 1 ∧
    (emergency_crash_recovery
      (emergency_crash_recovery (init 0))).pending_restorations = 2 ∧
    (emergency_crash_recovery (init 0)).current_view_distance
      = min_view_distance ∧
    (emergency_crash_recovery (init 0)).aggressive_mode = true :=
  ⟨by decide, by decide, by decide, by decide⟩

/-- Claim C4: `optimize_chunks` uses threshold 300 when aggressive and
500 otherwise; above the threshold it returns the excess, zeroes the
estimate and adds the excess to the running total, and otherwise returns
0 leaving the state unchanged; with estimate 600 it returns 100
non-aggressive and 300 aggressive. -/
theorem c4_optimize_chunks :
    (∀ s : OptState,
      (s.aggressive_mode = true → chunk_threshold s = 300) ∧
      (s.aggressive_mode = false → chunk_threshold s = 500) ∧
      (chunk_threshold s < s.loaded_chunks_estimated →
        (optimize_chunks s).1
          = s.loaded_chunks_estimated - chunk_threshold s ∧
        (optimize_chunks s).2.loaded_chunks_estimated = 0 ∧
        (optimize_chunks s).2.chunks_cleared_total
          = s.chunks_cleared_total
            + (s.loaded_chunks_estimated - chunk_threshold s)) ∧
      (s.loaded_chunks_estimated ≤ chunk_threshold s →
        optimize_chunks s = (0, s))) ∧
    (optimize_chunks { init 0 with loaded_chunks_estimated := 600 }).1
      = 100 ∧
    (optimize_chunks
      { init 0 with loaded_chunks_estimated := 600 }).2.loaded_chunks_estimated
      = 0 ∧
    (optimize_chunks
      { init 0 with
        loaded_chunks_estimated := 600
        aggressive_mode := true }).1 = 300 := by
  refine ⟨?_, by decide, by decide, by decide⟩
  intro s
  refine ⟨?_, ?_, ?_, ?_⟩
  · intro h
    unfold chunk_threshold
    simp [h]
  · intro h
    unfold chunk_threshold
    simp [h]
  · intro h
    unfold optimize_chunks
    rw [if_pos h]
    exact ⟨rfl, rfl, rfl⟩
  · intro h
    unfold optimize_chunks
    rw [if_neg (by omega)]

/-- Witness for C4 at estimate 501 (above threshold) and at the initial
estimate 0 (below threshold). -/
theorem c4_witness :
    (optimize_chunks { init 0 with loaded_chunks_estimated := 501 }).1 = 1 ∧
    optimize_chunks (init 0) = (0, init 0) := by
  constructor
  · have h := ((c4_optimize_chunks.1
      { init 0 with loaded_chunks_estimated := 501 }).2.2.1 (by decide)).1
    rw [h]
    decide
  · exact (c4_optimize_chunks.1 (init 0)).2.2.2 (by decide)

/-- Claim C5: the numeric view-distance command fails with
`invalidArgument` and no state change when the value is outside `[4, 12]`
or the argument is non-numeric; for a value in `[4, 12]` it succeeds,
sets the view distance to it and sets auto adjustment off. -/
theorem c5_manual_viewdistance : ∀ (s : OptState) (v : Int),
    ((v < min_view_distance ∨ max_view_distance < v) →
      handle_viewdistance_command s true (VdArg.num v)
        = (CmdOutcome.invalidArgument, s)) ∧
    (handle_viewdistance_command s true VdArg.invalid
      = (CmdOutcome.invalidArgument, s)) ∧
    (min_view_distance ≤ v → v ≤ max_view_distance →
      handle_viewdistance_command s true (VdArg.num v)
        = (CmdOutcome.ok,
           { s with
             current_view_distance := v
             auto_view_distance := false })) := by
  intro s v
  refine ⟨?_, ?_, ?_⟩
  · intro h
    unfold handle_viewdistance_command
    rw [if_neg (by simp)]
    dsimp only
    rw [if_pos h]
  · unfold handle_viewdistance_command
    rw [if_neg (by simp)]
  · intro h1 h2
    unfold handle_viewdistance_command
    rw [if_neg (by simp)]
    dsimp only
    rw [if_neg (by
      simp only [min_view_distance, max_view_distance] at h1 h2 ⊢
      omega)]

/-- Witness for C5 at the spec's probes 3, 13 and 10. -/
theorem c5_witness :
    handle_viewdistance_command (init 0) true (VdArg.num 3)
      = (CmdOutcome.invalidArgument, init 0) ∧
    handle_viewdistance_command (init 0) true (VdArg.num 13)
      = (CmdOutcome.invalidArgument, init 0) ∧
    handle_viewdistance_command (init 0) true (VdArg.num 10)
      = (CmdOutcome.ok,
         { init 0 with
           current_view_distance := 10
           auto_view_distance := false }) :=
  ⟨(c5_manual_viewdistance (init 0) 3).1 (by decide),
   (c5_manual_viewdistance (init 0) 13).1 (by decide),
   (c5_manual_viewdistance (init 0) 10).2.2 (by decide) (by decide)⟩

/-- Claim C10: the `auto` argument of the view-distance command toggles
the automatic-adjustment flag (true becomes false and false becomes true)
and leaves the current view distance unchanged. -/
theorem c10_auto_toggles : ∀ s : OptState,
    handle_viewdistance_command s true VdArg.autoArg
      = (CmdOutcome.ok,
         { s with auto_view_distance := !s.auto_view_distance }) ∧
    (handle_viewdistance_command s true VdArg.autoArg).2.current_view_distance
      = s.current_view_distance ∧
    (s.auto_view_distance = true →
      (handle_viewdistance_command s true VdArg.autoArg).2.auto_view_distance
        = false) ∧
    (s.auto_view_distance = false →
      (handle_viewdistance_command s true VdArg.autoArg).2.auto_view_distance
        = true) := by
  intro s
  have he : handle_viewdistance_command s true VdArg.autoArg
      = (CmdOutcome.ok,
         { s with auto_view_distance := !s.auto_view_distance }) := by
    unfold handle_viewdistance_command
    rw [if_neg (by simp)]
  refine ⟨he, by rw [he], ?_, ?_⟩
  · intro h
    rw [he]
    dsimp only
    rw [h]
    rfl
  · intro h
    rw [he]
    dsimp only
    rw [h]
    rfl

/-- Witness for C10: toggling from the load state (auto on) and from a
state with auto off. -/
theorem c10_witness :
    (handle_viewdistance_command (init 0) true
      VdArg.autoArg).2.auto_view_distance = false ∧
    (handle_viewdistance_command { init 0 with auto_view_distance := false }
      true VdArg.autoArg).2.auto_view_distance = true :=
  ⟨(c10_auto_toggles (init 0)).2.2.1 rfl,
   (c10_auto_toggles { init 0 with auto_view_distance := false }).2.2.2 rfl⟩

/-- Claim C3: the current view distance never leaves `[4, 12]` under any
operation, and with auto adjustment on the adjuster never raises it while
TPS < 17.0 and never lowers it while TPS ≥ 19.5. -/
theorem c3_view_distance_bounds :
    (∀ (op : Op) (s : OptState),
      min_view_distance ≤ s.current_view_distance ∧
        s.current_view_distance ≤ max_view_distance →
      min_view_distance ≤ (applyOp op s).current_view_distance ∧
        (applyOp op s).current_view_distance ≤ max_view_distance) ∧
    (∀ s : OptState, s.auto_view_distance = true →
      calculate_tps s.tick_times < 17 →
      min_view_distance ≤ s.current_view_distance →
      (adjust_view_distance s).current_view_distance
        ≤ s.current_view_distance) ∧
    (∀ s : OptState, s.auto_view_distance = true →
      (19.5 : ℚ) ≤ calculate_tps s.tick_times →
      s.current_view_distance
        ≤ (adjust_view_distance s).current_view_distance) :=
  ⟨fun op s h => range_applyOp op s h, adjust_no_increase, adjust_no_decrease⟩

/-- Witness for C3: emergency entry from the load state stays in range;
the adjuster does not raise the view distance on a window of 20 samples
of duration 2 (TPS 1/2) and does not lower it on the warm-up window
(TPS 20). -/
theorem c3_witness :
    (min_view_distance
        ≤ (applyOp Op.emergencyRecovery (init 0)).current_view_distance ∧
      (applyOp Op.emergencyRecovery (init 0)).current_view_distance
        ≤ max_view_distance) ∧
    (adjust_view_distance
        { init 0 with tick_times := List.replicate 20 2 }).current_view_distance
      ≤ ({ init 0 with
           tick_times := List.replicate 20 2 } : OptState).current_view_distance ∧
    (init 0).current_view_distance
      ≤ (adjust_view_distance (init 0)).current_view_distance := by
  refine ⟨c3_view_distance_bounds.1 Op.emergencyRecovery (init 0) (by decide),
          ?_, ?_⟩
  · apply c3_view_distance_bounds.2.1
    · rfl
    · show calculate_tps (List.replicate 20 (2 : ℚ)) < 17
      rw [calcTps_replicate20 2 (by norm_num)]
      rw [min_eq_right (by norm_num)]
      norm_num
    · decide
  · apply c3_view_distance_bounds.2.2
    · rfl
    · show (19.5 : ℚ) ≤ calculate_tps ([] : List ℚ)
      unfold calculate_tps
      norm_num

/-- Claim C6: in every reachable state whose computed TPS is below the
critical threshold 15.0, an invocation of `fast_optimization_check`
triggers emergency recovery (independent of the overload monitor's
player-count and chunk thresholds, which the fast path never reads). -/
theorem c6_fast_path_triggers (s : OptState) (hr : Reachable s)
    (h : calculate_tps s.tick_times < 15) :
    fast_optimization_check s = emergency_crash_recovery s ∧
    (fast_optimization_check s).current_view_distance = min_view_distance ∧
    (fast_optimization_check s).aggressive_mode = true := by
  have ha := reachable_auto_optimize hr
  have h1 : fast_optimization_check s = emergency_crash_recovery s := by
    unfold fast_optimization_check
    rw [if_neg (by simp [ha])]
    rw [if_pos (show calculate_tps s.tick_times < tps_critical from h)]
  refine ⟨h1, ?_, ?_⟩
  · rw [h1]
    exact cvd_emergency s
  · rw [h1]
    exact aggressive_emergency s

/-- Witness for C6: the 20-tick demo run is reachable, has TPS 1 < 15,
and the fast path enters emergency recovery on it. -/
theorem c6_witness :
    calculate_tps (demoState 20).tick_times < 15 ∧
    fast_optimization_check (demoState 20)
      = emergency_crash_recovery (demoState 20) := by
  have htps : calculate_tps (demoState 20).tick_times < 15 := by
    rw [demoState_tps]
    norm_num
  exact ⟨htps,
    (c6_fast_path_triggers (demoState 20) (demoState_reachable 20) htps).1⟩

/-- Claim C7: no operation of the optimizer ever decreases any of the
three lifetime totals. -/
theorem c7_counters_monotone : ∀ (op : Op) (s : OptState),
    s.total_optimizations ≤ (applyOp op s).total_optimizations ∧
    s.chunks_cleared_total ≤ (applyOp op s).chunks_cleared_total ∧
    s.entities_removed_total ≤ (applyOp op s).entities_removed_total :=
  fun op s => countersLE_applyOp op s

/-- Claim C8: `notify_admins_lag` is a no-op inside the 60 s cooldown;
otherwise it stamps `last_lag_alert` and messages exactly the
admin-capable players; two calls within 60 s of each other, the first
outside the cooldown, produce exactly one message burst. -/
theorem c8_alert_cooldown : ∀ (s : OptState) (now tps : ℚ)
    (players : List Player),
    (now - s.last_lag_alert < 60 →
      notify_admins_lag now tps players s = ([], s)) ∧
    (60 ≤ now - s.last_lag_alert →
      notify_admins_lag now tps players s
        = (players.filter isAdminCapable,
           { s with last_lag_alert := now })) ∧
    (∀ t1 t2 : ℚ, 60 ≤ t1 - s.last_lag_alert → t1 ≤ t2 → t2 - t1 < 60 →
      (notify_admins_lag t1 tps players s).1
        = players.filter isAdminCapable ∧
      (notify_admins_lag t2 tps players
        (notify_admins_lag t1 tps players s).2).1 = [] ∧
      (notify_admins_lag t2 tps players
        (notify_admins_lag t1 tps players s).2).2
        = { s with last_lag_alert := t1 }) := by
  intro s now tps players
  have hfire : ∀ t : ℚ, 60 ≤ t - s.last_lag_alert →
      notify_admins_lag t tps players s
        = (players.filter isAdminCapable,
           { s with last_lag_alert := t }) := by
    intro t ht
    unfold notify_admins_lag lag_alert_cooldown
    rw [if_neg (by linarith)]
  refine ⟨?_, hfire now, ?_⟩
  · intro h
    unfold notify_admins_lag lag_alert_cooldown
    rw [if_pos h]
  · intro t1 t2 h1 h2 h3
    rw [hfire t1 h1]
    dsimp only
    have hsecond : notify_admins_lag t2 tps players
        { s with last_lag_alert := t1 }
        = ([], { s with last_lag_alert := t1 }) := by
      unfold notify_admins_lag lag_alert_cooldown
      have hc : t2 - ({ s with last_lag_alert := t1 } : OptState).last_lag_alert
          < 60 := h3
      rw [if_pos hc]
    rw [hsecond]
    exact ⟨rfl, rfl, rfl⟩

/-- Witness for C8: from the load state (`last_lag_alert = 0`), a call at
t = 100 messages the one admin player and a second call at t = 130 is a
no-op. -/
theorem c8_witness :
    (notify_admins_lag 100 10 [⟨0, true, false⟩] (init 0)).1
      = [⟨0, true, false⟩] ∧
    (notify_admins_lag 130 10 [⟨0, true, false⟩]
      (notify_admins_lag 100 10 [⟨0, true, false⟩] (init 0)).2).1 = [] := by
  have h := (c8_alert_cooldown (init 0) 100 10 [⟨0, true, false⟩]).2.2 100 130
    (by show (60 : ℚ) ≤ 100 - 0; norm_num)
    (by norm_num)
    (by norm_num)
  refine ⟨?_, h.2.1⟩
  rw [h.1]
  decide

/-- Claim C9 counterexample: `calculate_tps` is not bounded below by 0 on
arbitrary tick-duration windows — on a window of 20 samples of duration
-1 (a backward wall-clock step makes `now - last_tick` negative) it
returns -1, outside `[0, 20]`. -/
theorem c9_counterexample :
    calculate_tps (List.replicate 20 (-1 : ℚ)) = -1 ∧
    ¬ (0 ≤ calculate_tps (List.replicate 20 (-1 : ℚ)) ∧
       calculate_tps (List.replicate 20 (-1 : ℚ)) ≤ 20) := by
  have h : calculate_tps (List.replicate 20 (-1 : ℚ)) = -1 := by
    rw [calcTps_replicate20 (-1) (by norm_num)]
    rw [min_eq_right (by norm_num)]
    norm_num
  refine ⟨h, ?_⟩
  rw [h]
  norm_num

/-- Claim C9 (amended): on every window of nonnegative samples
`calculate_tps` lies in `[0, 20]`; the per-tick monitor appends exactly
the TPS of the updated window to the 60-capacity history, and that value
lies in `[0, 20]` whenever the retained samples are nonnegative and the
clock did not step backwards. -/
theorem c9_tps_bounds :
    (∀ w : List ℚ, (∀ x ∈ w, 0 ≤ x) →
      0 ≤ calculate_tps w ∧ calculate_tps w ≤ 20) ∧
    (∀ (now : ℚ) (players : List Player) (s : OptState),
      (monitor_performance now players s).tps_history
        = dappend 60 s.tps_history
            (calculate_tps (dappend 200 s.tick_times (now - s.last_tick))) ∧
      (s.last_tick ≤ now → (∀ x ∈ s.tick_times, 0 ≤ x) →
        0 ≤ calculate_tps (dappend 200 s.tick_times (now - s.last_tick)) ∧
        calculate_tps (dappend 200 s.tick_times (now - s.last_tick)) ≤ 20)) := by
  refine ⟨calcTps_bounds, ?_⟩
  intro now players s
  refine ⟨monitor_history now players s, ?_⟩
  intro hle hw
  apply calcTps_bounds
  intro x hx
  rcases mem_dappend hx with h | h
  · exact hw x h
  · rw [h]
    linarith

/-- Witness for C9 (amended) at the all-ones window and at a monitor step
from the load state. -/
theorem c9_witness :
    (0 ≤ calculate_tps (List.replicate 20 (1 : ℚ)) ∧
      calculate_tps (List.replicate 20 (1 : ℚ)) ≤ 20) ∧
    (0 ≤ calculate_tps (dappend 200 (init 0).tick_times
        ((1 : ℚ) - (init 0).last_tick)) ∧
      calculate_tps (dappend 200 (init 0).tick_times
        ((1 : ℚ) - (init 0).last_tick)) ≤ 20) := by
  constructor
  · exact c9_tps_bounds.1 (List.replicate 20 1) (by
      intro x hx
      rw [List.eq_of_mem_replicate hx]
      norm_num)
  · exact (c9_tps_bounds.2 1 [] (init 0)).2
      (by show (0 : ℚ) ≤ 1; norm_num)
      (by intro x hx; simp [init] at hx)

end ServerOptimizer
